import Mathlib

/-!
Shallow embedding of the matching engine of the `auto_utils` repository
(crates `image_utils`): color-difference scoring (`color_detection.rs`),
template confidence-map search, candidate extraction, non-maximum
suppression and digit recognition (`image_match.rs`).

Machine integers of the source (`i32`, `u32`, `u8`) are modelled as
`ℤ`, `ℕ` and `Fin 256`; none of the verified operations can overflow on
the inputs the claims quantify over.  `f64`/`f32` similarity scores and
centers are modelled as `ℚ`: every arithmetic operation performed on
them by the source (`+`, `/ 2.0`, `round`, comparisons) is exact on the
values involved.  External collaborators (screen capture, image decode,
OpenCV's correlation kernel) are passed in as explicit parameters.
-/

namespace AutoUtils

/-- Embedding of `types.rs` `Point<T>`. -/
structure Point (α : Type) where
  x : α
  y : α
deriving DecidableEq, Repr

/-- Embedding of `types.rs` `MatchResult<i32>`: confidence, the four
corner points of the bounding box, and the (unrounded) center. -/
structure MatchResult where
  confidence : ℚ
  rectangle : List (Point ℤ)
  result : Point ℚ
deriving DecidableEq, Repr

/-- Embedding of `screenshot_error.rs` `ScreenshotError`. -/
inductive ScreenshotError where
  | capture (msg : String)
  | shape (msg : String)
  | noMonitorFound
  | openCV (msg : String)
deriving DecidableEq, Repr

/-- Embedding of `image_match_error.rs` `ImageMatchError`: its only
variants are `Screenshot`, `OpenCV` and `CanNotReadImage`. -/
inductive ImageMatchError where
  | screenshot (e : ScreenshotError)
  | openCV (msg : String)
  | canNotReadImage (path : String)
deriving DecidableEq, Repr

/-- An OpenCV `Mat` holding an image: row/column count, channel count
(1 = grayscale, 3 = BGR) and a per-(row, col, channel) sample value. -/
structure Img where
  rows : ℕ
  cols : ℕ
  channels : ℕ
  pixel : ℕ → ℕ → ℕ → ℚ

/-- An OpenCV `Mat` holding a single-channel `f32` confidence map. -/
structure ScoreMap where
  rows : ℕ
  cols : ℕ
  cell : ℕ → ℕ → ℚ

/-- The similarity kernel computed by OpenCV `matchTemplate` with
`TM_CCOEFF_NORMED`; it is external to the repository, so the score it
assigns to each alignment is kept abstract as a parameter. -/
abbrev Corr := Img → Img → ℕ → ℕ → ℚ

/-- Rust `f64::round`: round half away from zero. -/
def roundRust (q : ℚ) : ℤ :=
  if 0 ≤ q then Int.floor (q + 1/2) else -Int.floor (1/2 - q)

/-- Modelled from the spec: standard luma weighting used by the
grayscale conversion (`cvt_color` with `COLOR_BGR2GRAY`), which lives in
OpenCV, outside this repository.  Channel order of the input is BGR. -/
def luma (b g r : ℚ) : ℚ := (299 * r + 587 * g + 114 * b) / 1000

/-- Modelled from the spec: OpenCV `cvt_color(.., COLOR_BGR2GRAY, ..)`.
Produces a single-channel image of the same dimensions whose samples
are the luma of the input's BGR samples. -/
def cvtColorToGray (m : Img) : Img :=
  { rows := m.rows
    cols := m.cols
    channels := 1
    pixel := fun r c _ => luma (m.pixel r c 0) (m.pixel r c 1) (m.pixel r c 2) }

/-- Modelled from the spec: OpenCV `match_template` with
`TM_CCOEFF_NORMED` (the correlation routine itself is not part of this
repository).  A template exceeding the source in either axis is an
error — surfaced by the binding as a generic propagated OpenCV error,
since `ImageMatchError` has no dedicated variant for it; otherwise the
result is the `(srcRows - tplRows + 1) × (srcCols - tplCols + 1)`
confidence map whose scores are given by the abstract kernel. -/
def match_template (corr : Corr) (src tpl : Img) : Except ImageMatchError ScoreMap :=
  if src.rows < tpl.rows ∨ src.cols < tpl.cols then
    Except.error (ImageMatchError.openCV "template larger than source")
  else
    Except.ok { rows := src.rows - tpl.rows + 1, cols := src.cols - tpl.cols + 1
                cell := corr src tpl }

/-- The mode dispatch shared by `find_all_template`,
`find_template_exists` and `find_template_coord` in `image_match.rs`:
color mode correlates directly; grayscale mode first converts the
source (skipped when it is already single-channel) and the template. -/
def matchTemplateMode (corr : Corr) (imgsrc imgobj : Img) (rgb : Bool) :
    Except ImageMatchError ScoreMap :=
  if rgb then
    match_template corr imgsrc imgobj
  else
    let gray_src := if imgsrc.channels = 1 then imgsrc else cvtColorToGray imgsrc
    let gray_obj := cvtColorToGray imgobj
    match_template corr gray_src gray_obj

/-- The `MatchResult` that `extract_matches` pushes for a qualifying
cell `(y, x)` of the confidence map: unrounded center
`(x + w / 2, y + h / 2)` and corner points `(x, y)`, `(x, y + h)`,
`(x + w, y)`, `(x + w, y + h)`. -/
def mkMatch (w h : ℕ) (x y : ℕ) (v : ℚ) : MatchResult :=
  { confidence := v
    rectangle := [⟨(x : ℤ), (y : ℤ)⟩, ⟨(x : ℤ), (y : ℤ) + (h : ℤ)⟩,
                  ⟨(x : ℤ) + (w : ℤ), (y : ℤ)⟩, ⟨(x : ℤ) + (w : ℤ), (y : ℤ) + (h : ℤ)⟩]
    result := ⟨(x : ℚ) + (w : ℚ) / 2, (y : ℚ) + (h : ℚ) / 2⟩ }

/-- The row-major list of candidates collected by the double loop of
`extract_matches` in `image_match.rs`, before sorting. -/
def rawMatches (match_result : ScoreMap) (template : Img) (threshold : ℚ) :
    List MatchResult :=
  (List.range match_result.rows).flatMap fun y =>
    (List.range match_result.cols).filterMap fun x =>
      if threshold ≤ match_result.cell y x then
        some (mkMatch template.cols template.rows x y (match_result.cell y x))
      else none

/-- The sort relation of `extract_matches`: descending confidence
(`b.confidence.partial_cmp(&a.confidence)` in the source). -/
def confGe (a b : MatchResult) : Prop := b.confidence ≤ a.confidence

instance : DecidableRel confGe := fun a b =>
  inferInstanceAs (Decidable (b.confidence ≤ a.confidence))

instance : IsTotal MatchResult confGe := ⟨fun a b => le_total b.confidence a.confidence⟩

instance : IsTrans MatchResult confGe := ⟨fun _ _ _ h1 h2 => le_trans h2 h1⟩

/-- Embedding of `extract_matches` in `image_match.rs`: collect one
candidate per qualifying confidence-map cell in row-major order, then
stable-sort by descending confidence. -/
def extract_matches (match_result : ScoreMap) (template : Img) (threshold : ℚ) :
    List MatchResult :=
  List.insertionSort confGe (rawMatches match_result template threshold)

/-- Rust's `?` operator on a `Result`: propagate the error, otherwise
continue with the value. -/
def andThen {α β : Type} (x : Except ImageMatchError α)
    (f : α → Except ImageMatchError β) : Except ImageMatchError β :=
  match x with
  | Except.error e => Except.error e
  | Except.ok a => f a

/-- Embedding of `find_all_template` in `image_match.rs`. -/
def find_all_template (corr : Corr) (imgsrc imgobj : Img) (confidence : ℚ)
    (rgb : Bool) : Except ImageMatchError (List MatchResult) :=
  andThen (matchTemplateMode corr imgsrc imgobj rgb) fun result_mat =>
    Except.ok (extract_matches result_mat imgobj confidence)

/-- Result of the `?`-conversion `ScreenshotError → ImageMatchError`
performed by the `#[from]` attribute in `image_match_error.rs`. -/
def liftScreenshot : Except ScreenshotError Img → Except ImageMatchError Img
  | Except.ok m => Except.ok m
  | Except.error e => Except.error (ImageMatchError.screenshot e)

/-- The row-major first hit scan of `find_template_coord` (and
`find_template_exists`): the continuous-memory loop runs a flat index
`i` over `rows * cols` cells with `y = i / cols`, `x = i % cols` and
stops at the first score at or above the threshold. -/
def firstHit (result_mat : ScoreMap) (threshold : ℚ) : Option (ℕ × ℕ) :=
  ((List.range (result_mat.rows * result_mat.cols)).find? fun i =>
      decide (threshold ≤ result_mat.cell (i / result_mat.cols) (i % result_mat.cols))).map
    fun i => (i / result_mat.cols, i % result_mat.cols)

/-- Embedding of `find_template_coord` in `image_match.rs`: run the
template match, scan the confidence map row-major for the first
qualifying cell, round its center to the nearest integer and translate
by the offsets; `(0, 0)` when no cell qualifies. -/
def find_template_coord (corr : Corr) (imgsrc imgobj : Img) (confidence : ℚ)
    (rgb : Bool) (offset_x offset_y : ℤ) : Except ImageMatchError (ℤ × ℤ) :=
  andThen (matchTemplateMode corr imgsrc imgobj rgb) fun result_mat =>
    match firstHit result_mat confidence with
    | some (y, x) =>
        Except.ok (offset_x + roundRust ((x : ℚ) + (imgobj.cols : ℚ) / 2),
                   offset_y + roundRust ((y : ℚ) + (imgobj.rows : ℚ) / 2))
    | none => Except.ok (0, 0)

/-- Embedding of `find_image_optimized_coord` in `image_match.rs`.  The
template decode and the two capture paths are external collaborators,
passed in as their results. -/
def find_image_optimized_coord (corr : Corr) (x y : ℤ)
    (readImage : Except ImageMatchError Img)
    (captureColor captureGray : Except ScreenshotError Img)
    (threshold : ℚ) (rgb : Bool) : Except ImageMatchError (ℤ × ℤ) :=
  andThen readImage fun template =>
  andThen (liftScreenshot (if rgb then captureColor else captureGray)) fun screenshot =>
  andThen (find_all_template corr screenshot template threshold rgb) fun found_matches =>
    match found_matches.head? with
    | some first_match =>
        Except.ok (x + roundRust first_match.result.x, y + roundRust first_match.result.y)
    | none => Except.ok (0, 0)

/-- The non-maximum-suppression loop of `find_images_optimized_coords`:
walk the (confidence-descending) centers, keeping a candidate only when
no already-accepted center is within `min_distance` in both axes. -/
def dedupGo (min_distance : ℤ) : List (ℤ × ℤ) → List (ℤ × ℤ) → List (ℤ × ℤ)
  | filtered_coords, [] => filtered_coords
  | filtered_coords, c :: rest =>
    if filtered_coords.any
        (fun e => decide (|c.1 - e.1| < min_distance ∧ |c.2 - e.2| < min_distance)) then
      dedupGo min_distance filtered_coords rest
    else
      dedupGo min_distance (filtered_coords ++ [c]) rest

/-- Greedy per-template deduplication of a list of absolute centers,
starting from an empty accepted list. -/
def dedupCoords (min_distance : ℤ) (centers : List (ℤ × ℤ)) : List (ℤ × ℤ) :=
  dedupGo min_distance [] centers

/-- The per-template loop of `find_images_optimized_coords`: for each
template path, decode, match all, round and translate the centers,
deduplicate with `min_distance = max(width, height)`, and append to the
accumulated coordinates; a decode or match error aborts the call. -/
def imagesLoop (corr : Corr) (x y : ℤ) (screenshot : Img)
    (readImage : String → Except ImageMatchError Img) (threshold : ℚ) (rgb : Bool) :
    List String → List (ℤ × ℤ) → Except ImageMatchError (List (ℤ × ℤ))
  | [], all_coords => Except.ok all_coords
  | image_path :: rest, all_coords =>
    andThen (readImage image_path) fun template =>
    andThen (find_all_template corr screenshot template threshold rgb) fun found_matches =>
      let min_distance : ℤ := (max template.cols template.rows : ℕ)
      let centers := found_matches.map fun m =>
        (x + roundRust m.result.x, y + roundRust m.result.y)
      imagesLoop corr x y screenshot readImage threshold rgb rest
        (all_coords ++ dedupCoords min_distance centers)

/-- Embedding of `find_images_optimized_coords` in `image_match.rs`:
empty template list short-circuits to `Ok([])` before any capture or
decode; otherwise one shared capture followed by the per-template
loop. -/
def find_images_optimized_coords (corr : Corr) (x y : ℤ)
    (captureColor captureGray : Except ScreenshotError Img)
    (readImage : String → Except ImageMatchError Img)
    (image_paths : List String) (threshold : ℚ) (rgb : Bool) :
    Except ImageMatchError (List (ℤ × ℤ)) :=
  if image_paths.isEmpty then Except.ok []
  else
    andThen (liftScreenshot (if rgb then captureColor else captureGray)) fun screenshot =>
      imagesLoop corr x y screenshot readImage threshold rgb image_paths []

/-- The merged per-digit candidate list of
`find_characters_from_library_threaded`: for each digit 0–9, a failed
template load contributes nothing, a failed match contributes nothing,
and a successful match contributes one `(center x, digit)` pair per
candidate.  `rayon`'s `collect` on an indexed parallel iterator
reassembles the per-digit lists in digit order regardless of task
completion order, so the merge is modelled as a sequential `flatMap`. -/
def digitCandidates (corr : Corr) (screenshot : Img)
    (loadDigit : ℕ → Except ImageMatchError Img) (threshold : ℚ) : List (ℚ × ℕ) :=
  (List.range 10).flatMap fun digit =>
    match loadDigit digit with
    | Except.error _ => []
    | Except.ok template =>
      match find_all_template corr screenshot template threshold false with
      | Except.error _ => []
      | Except.ok ms => ms.map fun m => (m.result.x, digit)

/-- The sort relation of `find_characters_from_library_threaded`:
ascending candidate center x (`a.0.partial_cmp(&b.0)` in the source). -/
def xLe (a b : ℚ × ℕ) : Prop := a.1 ≤ b.1

instance : DecidableRel xLe := fun a b => inferInstanceAs (Decidable (a.1 ≤ b.1))

instance : IsTotal (ℚ × ℕ) xLe := ⟨fun a b => le_total a.1 b.1⟩

instance : IsTrans (ℚ × ℕ) xLe := ⟨fun _ _ _ h1 h2 => le_trans h1 h2⟩

/-- Embedding of `find_characters_from_library_threaded` in
`image_match.rs`: one grayscale capture, per-digit matching, merge,
stable sort ascending by center x, and rendering each digit as its
decimal character (`char::from(b'0' + digit)`). -/
def find_characters_from_library_threaded (corr : Corr)
    (captureGray : Except ScreenshotError Img)
    (loadDigit : ℕ → Except ImageMatchError Img) (threshold : ℚ) :
    Except ImageMatchError String :=
  andThen (liftScreenshot captureGray) fun screenshot =>
    let sorted_results :=
      List.insertionSort xLe (digitCandidates corr screenshot loadDigit threshold)
    Except.ok (String.mk (sorted_results.map fun p => Char.ofNat (48 + p.2)))

/-- An 8-bit color channel value. -/
abbrev Channel := Fin 256

/-- A `(u8, u8, u8)` color triple as used by `color_detection.rs`. -/
abbrev Color8 := Channel × Channel × Channel

/-- A captured BGR region buffer: the `Vec3b` sample at each (row, col)
is in OpenCV's BGR channel order. -/
structure CapturedImg where
  rows : ℕ
  cols : ℕ
  pixel : ℕ → ℕ → Color8

/-- The BGR→RGB swizzle `(bgr.2, bgr.1, bgr.0)` applied to each pixel
before comparing with the target color. -/
def rgb_of_bgr (p : Color8) : Color8 := (p.2.2, p.2.1, p.1)

/-- Embedding of `calculate_color_difference` in `color_detection.rs`:
Manhattan distance in 8-bit channel space. -/
def calculate_color_difference (color1 color2 : Color8) : ℕ :=
  ((color1.1.val : ℤ) - (color2.1.val : ℤ)).natAbs
    + ((color1.2.1.val : ℤ) - (color2.2.1.val : ℤ)).natAbs
    + ((color1.2.2.val : ℤ) - (color2.2.2.val : ℤ)).natAbs

/-- Embedding of the scan of `find_color_in_region` in
`color_detection.rs` on the captured buffer: row-major scan, true as
soon as one pixel is within the tolerance. -/
def find_color_in_region (img : CapturedImg) (target_rgb : Color8)
    (tolerance : ℕ) : Bool :=
  (List.range img.rows).any fun y =>
    (List.range img.cols).any fun x =>
      decide (calculate_color_difference (rgb_of_bgr (img.pixel y x)) target_rgb ≤ tolerance)

/-- The (row, col) pairs visited by the nested `for y / for x` loops of
`color_detection.rs`, in visit order. -/
def rowMajorPairs (rows cols : ℕ) : List (ℕ × ℕ) :=
  (List.range rows).flatMap fun y => (List.range cols).map fun x => (y, x)

/-- Embedding of `find_color_in_region_coord` in `color_detection.rs`:
absolute coordinate `(x1 + x, y1 + y)` of the first matching pixel in
row-major order, or the `(0, 0)` sentinel. -/
def find_color_in_region_coord (x1 y1 : ℕ) (img : CapturedImg)
    (target_rgb : Color8) (tolerance : ℕ) : ℕ × ℕ :=
  match (rowMajorPairs img.rows img.cols).find? (fun p =>
      decide (calculate_color_difference (rgb_of_bgr (img.pixel p.1 p.2)) target_rgb
        ≤ tolerance)) with
  | some p => (x1 + p.2, y1 + p.1)
  | none => (0, 0)

/-- The acceptance criterion of the NMS loop, as a relation between two
accepted centers. -/
def farApart (d : ℤ) (p q : ℤ × ℤ) : Prop := d ≤ |p.1 - q.1| ∨ d ≤ |p.2 - q.2|

/-! ## Concrete fixtures used by witnesses and counterexamples -/

/-- A similarity kernel that scores every alignment 0. -/
def corr0 : Corr := fun _ _ _ _ => 0

/-- A similarity kernel that scores column 1 of the confidence map 3 and
every other cell 2. -/
def corrTwoCells : Corr := fun _ _ _ c => if c = 1 then 3 else 2

/-- A 1×1 three-channel image. -/
def imgC1 : Img := ⟨1, 1, 3, fun _ _ _ => 1⟩

/-- A 2×2 three-channel image. -/
def imgC2 : Img := ⟨2, 2, 3, fun _ _ _ => 1⟩

/-- A 1×2 three-channel image. -/
def imgC12 : Img := ⟨1, 2, 3, fun _ _ _ => 1⟩

/-- A 1×1 single-channel image. -/
def imgG1 : Img := ⟨1, 1, 1, fun _ _ _ => 1⟩

/-- The confidence map produced by matching `imgC1` against `imgC12`
under `corrTwoCells`. -/
def resTwo : ScoreMap := ⟨1, 2, corrTwoCells imgC12 imgC1⟩

/-- A digit library whose glyph for digit 5 loads (but is larger than
the captured buffer) while every other glyph fails to load. -/
def loadDigitBig5 : ℕ → Except ImageMatchError Img := fun d =>
  if d = 5 then Except.ok imgC2 else Except.error (ImageMatchError.canNotReadImage "missing")

/-- A 1×1 captured buffer whose only pixel has BGR value (0, 0, 5),
i.e. RGB value (5, 0, 0). -/
def imgMono : CapturedImg := ⟨1, 1, fun _ _ => (0, 0, 5)⟩

/-! ## Helper lemmas -/

theorem andThen_ok {α β : Type} (a : α) (f : α → Except ImageMatchError β) :
    andThen (Except.ok a) f = f a := rfl

theorem andThen_error {α β : Type} (e : ImageMatchError)
    (f : α → Except ImageMatchError β) :
    andThen (Except.error e) f = Except.error e := rfl

theorem liftScreenshot_ok (m : Img) : liftScreenshot (Except.ok m) = Except.ok m := rfl

theorem find?_range'_eq_some {p : ℕ → Bool} :
    ∀ (n s k : ℕ), s ≤ k → k < s + n → p k = true →
      (∀ j, s ≤ j → j < k → p j = false) → (List.range' s n).find? p = some k := by
  intro n
  induction n with
  | zero => intro s k h1 h2 _ _; omega
  | succ n ih =>
    intro s k h1 h2 hk hmin
    rw [List.range'_succ]
    by_cases hs : s = k
    · subst hs
      exact List.find?_cons_of_pos _ (by simp [hk])
    · have hps : p s = false := hmin s le_rfl (by omega)
      rw [List.find?_cons_of_neg _ (by simp [hps])]
      exact ih (s + 1) k (by omega) (by omega) hk (fun j hj1 hj2 => hmin j (by omega) hj2)

theorem find?_range'_eq_none {p : ℕ → Bool} :
    ∀ (n s : ℕ), (∀ j, s ≤ j → j < s + n → p j = false) →
      (List.range' s n).find? p = none := by
  intro n
  induction n with
  | zero => intro s _; rfl
  | succ n ih =>
    intro s h
    rw [List.range'_succ, List.find?_cons_of_neg _ (by simp [h s le_rfl (by omega)])]
    exact ih (s + 1) (fun j hj1 hj2 => h j (by omega) (by omega))

theorem find?_range_eq_some {p : ℕ → Bool} (n k : ℕ) (hk : k < n) (hpk : p k = true)
    (hmin : ∀ j, j < k → p j = false) : (List.range n).find? p = some k := by
  rw [List.range_eq_range']
  exact find?_range'_eq_some n 0 k (Nat.zero_le k) (by omega) hpk (fun j _ hj => hmin j hj)

theorem find?_range_eq_none {p : ℕ → Bool} (n : ℕ) (h : ∀ j, j < n → p j = false) :
    (List.range n).find? p = none := by
  rw [List.range_eq_range']
  exact find?_range'_eq_none n 0 (fun j _ hj => h j (by omega))

theorem firstHit_eq_some (res : ScoreMap) (t : ℚ) (i : ℕ)
    (hi : i < res.rows * res.cols)
    (hhit : t ≤ res.cell (i / res.cols) (i % res.cols))
    (hmin : ∀ j, j < i → ¬ t ≤ res.cell (j / res.cols) (j % res.cols)) :
    firstHit res t = some (i / res.cols, i % res.cols) := by
  unfold firstHit
  rw [find?_range_eq_some _ i hi (by simpa using hhit)
    (fun j hj => by simpa using hmin j hj)]
  rfl

theorem firstHit_eq_none (res : ScoreMap) (t : ℚ)
    (h : ∀ j, j < res.rows * res.cols → ¬ t ≤ res.cell (j / res.cols) (j % res.cols)) :
    firstHit res t = none := by
  unfold firstHit
  rw [find?_range_eq_none _ (fun j hj => by simpa using h j hj)]
  rfl

theorem rowMajorPairs_eq (rows cols : ℕ) :
    rowMajorPairs rows cols
      = (List.range (rows * cols)).map fun i => (i / cols, i % cols) := by
  induction rows with
  | zero => simp [rowMajorPairs]
  | succ r ih =>
    have hsplit : rowMajorPairs (r + 1) cols
        = rowMajorPairs r cols ++ ((List.range cols).map fun x => (r, x)) := by
      unfold rowMajorPairs
      rw [List.range_succ, List.flatMap_append]
      simp
    rw [hsplit, ih, Nat.succ_mul, List.range_add, List.map_append, List.map_map]
    congr 1
    refine List.map_congr_left ?_
    intro a ha
    have hac : a < cols := List.mem_range.mp ha
    have hc : 0 < cols := by omega
    have hre : r * cols + a = a + cols * r := by ring
    have h1 : (a + cols * r) / cols = r := by
      rw [Nat.add_mul_div_left _ _ hc, Nat.div_eq_of_lt hac, Nat.zero_add]
    have h2 : (a + cols * r) % cols = a := by
      rw [Nat.add_mul_mod_self_left, Nat.mod_eq_of_lt hac]
    simp [Function.comp, hre, h1, h2]

theorem farApart_comm {d : ℤ} {p q : ℤ × ℤ} (h : farApart d p q) : farApart d q p := by
  unfold farApart at h ⊢
  rwa [abs_sub_comm q.1 p.1, abs_sub_comm q.2 p.2]

theorem dedupGo_pairwise (d : ℤ) :
    ∀ (l acc : List (ℤ × ℤ)), List.Pairwise (farApart d) acc →
      List.Pairwise (farApart d) (dedupGo d acc l) := by
  intro l
  induction l with
  | nil => intro acc h; exact h
  | cons c rest ih =>
    intro acc hacc
    show List.Pairwise (farApart d)
      (if acc.any (fun e => decide (|c.1 - e.1| < d ∧ |c.2 - e.2| < d)) then
        dedupGo d acc rest
      else dedupGo d (acc ++ [c]) rest)
    by_cases hov : acc.any (fun e => decide (|c.1 - e.1| < d ∧ |c.2 - e.2| < d)) = true
    · rw [if_pos hov]
      exact ih acc hacc
    · rw [if_neg hov]
      apply ih
      rw [List.pairwise_append]
      refine ⟨hacc, List.pairwise_singleton _ _, ?_⟩
      intro a ha b hb
      rw [List.mem_singleton] at hb
      subst hb
      have hall : ¬ (|b.1 - a.1| < d ∧ |b.2 - a.2| < d) := by
        intro hcon
        exact hov (List.any_eq_true.mpr ⟨a, ha, by simpa using hcon⟩)
      have := not_and_or.mp hall
      rcases this with h1 | h2
      · exact farApart_comm (Or.inl (not_lt.mp h1))
      · exact farApart_comm (Or.inr (not_lt.mp h2))

theorem extract_matches_sorted (res : ScoreMap) (tpl : Img) (t : ℚ) :
    List.Pairwise confGe (extract_matches res tpl t) :=
  List.sorted_insertionSort confGe (rawMatches res tpl t)

theorem extract_matches_perm (res : ScoreMap) (tpl : Img) (t : ℚ) :
    List.Perm (extract_matches res tpl t) (rawMatches res tpl t) :=
  List.perm_insertionSort confGe (rawMatches res tpl t)

theorem find_all_template_ok {corr : Corr} {src tpl : Img} {conf : ℚ} {rgb : Bool}
    {L : List MatchResult} (h : find_all_template corr src tpl conf rgb = Except.ok L) :
    ∃ res, matchTemplateMode corr src tpl rgb = Except.ok res
      ∧ L = extract_matches res tpl conf := by
  unfold find_all_template at h
  cases hmt : matchTemplateMode corr src tpl rgb with
  | error e => rw [hmt, andThen_error] at h; exact absurd h (by simp)
  | ok res =>
    rw [hmt, andThen_ok] at h
    refine ⟨res, rfl, ?_⟩
    simpa using h.symm

theorem calculate_color_difference_self (c : Color8) :
    calculate_color_difference c c = 0 := by
  unfold calculate_color_difference
  omega

theorem find_color_in_region_coord_hit (x1 y1 : ℕ) (img : CapturedImg)
    (target : Color8) (tol : ℕ) (i : ℕ) (hi : i < img.rows * img.cols)
    (hhit : calculate_color_difference
      (rgb_of_bgr (img.pixel (i / img.cols) (i % img.cols))) target ≤ tol)
    (hmin : ∀ j, j < i → ¬ calculate_color_difference
      (rgb_of_bgr (img.pixel (j / img.cols) (j % img.cols))) target ≤ tol) :
    find_color_in_region_coord x1 y1 img target tol
      = (x1 + i % img.cols, y1 + i / img.cols) := by
  unfold find_color_in_region_coord
  rw [rowMajorPairs_eq, List.find?_map]
  rw [find?_range_eq_some _ i hi (by simpa [Function.comp] using hhit)
    (fun j hj => by simpa [Function.comp] using hmin j hj)]
  rfl

theorem find_color_in_region_coord_miss (x1 y1 : ℕ) (img : CapturedImg)
    (target : Color8) (tol : ℕ)
    (hmiss : ∀ j, j < img.rows * img.cols → ¬ calculate_color_difference
      (rgb_of_bgr (img.pixel (j / img.cols) (j % img.cols))) target ≤ tol) :
    find_color_in_region_coord x1 y1 img target tol = (0, 0) := by
  unfold find_color_in_region_coord
  rw [rowMajorPairs_eq, List.find?_map]
  rw [find?_range_eq_none _ (fun j hj => by simpa [Function.comp] using hmiss j hj)]
  rfl

/-! ## Claims -/

/-- C9: for all colors `a` and `b`, `calculate_color_difference a b` is
the sum of the absolute per-channel differences of the three 8-bit
channels, lies in the range 0–765, is symmetric, and vanishes on equal
colors. -/
theorem C9_color_difference_props :
    ∀ a b : Color8,
      calculate_color_difference a b
          = ((a.1.val : ℤ) - (b.1.val : ℤ)).natAbs
            + ((a.2.1.val : ℤ) - (b.2.1.val : ℤ)).natAbs
            + ((a.2.2.val : ℤ) - (b.2.2.val : ℤ)).natAbs
        ∧ calculate_color_difference a b ≤ 765
        ∧ calculate_color_difference a b = calculate_color_difference b a
        ∧ calculate_color_difference a a = 0 := by
  intro a b
  have h1 := a.1.isLt
  have h2 := a.2.1.isLt
  have h3 := a.2.2.isLt
  have h4 := b.1.isLt
  have h5 := b.2.1.isLt
  have h6 := b.2.2.isLt
  unfold calculate_color_difference
  refine ⟨rfl, by omega, by omega, by omega⟩

/-- C10: with an empty template-path list,
`find_images_optimized_coords` returns `Ok([])` for every capture
outcome, every decoder and every threshold/mode — in particular it
succeeds without capturing the screen or reading any template. -/
theorem C10_empty_paths :
    ∀ (corr : Corr) (x y : ℤ) (captureColor captureGray : Except ScreenshotError Img)
      (readImage : String → Except ImageMatchError Img) (t : ℚ) (rgb : Bool),
      find_images_optimized_coords corr x y captureColor captureGray readImage [] t rgb
        = Except.ok [] :=
  fun _ _ _ _ _ _ _ _ => rfl

/-- C3: exhaustive extraction emits exactly the row-major list of
per-qualifying-cell candidates (one candidate per cell with score at or
above the threshold, with the unrounded center and the four corner
points given by `mkMatch`), reordered into a list sorted non-increasing
by confidence. -/
theorem C3_extract_matches_spec :
    ∀ (res : ScoreMap) (tpl : Img) (t : ℚ),
      List.Perm (extract_matches res tpl t) (rawMatches res tpl t)
        ∧ List.Pairwise (fun a b => b.confidence ≤ a.confidence) (extract_matches res tpl t)
        ∧ ∀ m, m ∈ rawMatches res tpl t ↔
            ∃ y x, y < res.rows ∧ x < res.cols ∧ t ≤ res.cell y x
              ∧ m = mkMatch tpl.cols tpl.rows x y (res.cell y x) := by
  intro res tpl t
  refine ⟨extract_matches_perm res tpl t, extract_matches_sorted res tpl t, fun m => ?_⟩
  simp only [rawMatches, List.mem_flatMap, List.mem_range, List.mem_filterMap,
    Option.ite_none_right_eq_some, Option.some.injEq]
  constructor
  · rintro ⟨y, hy, x, hx, hc, hm⟩
    exact ⟨y, x, hy, hx, hc, hm.symm⟩
  · rintro ⟨y, x, hy, hx, hc, hm⟩
    exact ⟨y, hy, x, hx, hc, hm.symm⟩

/-- C4: deduplication is greedy in list order with the acceptance rule
"far from every already-accepted center in at least one axis": every
two surviving centers are at distance `≥ min_distance` in x or in y;
for a 20×20 template (`min_distance = max 20 20`), of two centers 5
pixels apart exactly one survives, and of two centers 25 pixels apart
both survive. -/
theorem C4_dedup_spec :
    (∀ (d : ℤ) (l : List (ℤ × ℤ)),
        List.Pairwise (fun p q => d ≤ |p.1 - q.1| ∨ d ≤ |p.2 - q.2|) (dedupCoords d l))
      ∧ dedupCoords (max 20 20) [(100, 100), (105, 100)] = [(100, 100)]
      ∧ dedupCoords (max 20 20) [(100, 100), (125, 100)] = [(100, 100), (125, 100)] := by
  refine ⟨fun d l => dedupGo_pairwise d l [] List.Pairwise.nil, ?_, ?_⟩ <;> decide

/-- C5: digit recognition returns exactly the string obtained by
merging the per-digit candidate lists, stable-sorting the merged list
ascending by center x, and rendering each candidate's digit as its
decimal character; the sorted list is an x-ascending permutation of the
merged list. -/
theorem C5_digit_string_spec :
    ∀ (corr : Corr) (img : Img) (loadDigit : ℕ → Except ImageMatchError Img) (t : ℚ),
      find_characters_from_library_threaded corr (Except.ok img) loadDigit t
          = Except.ok (String.mk
              ((List.insertionSort xLe (digitCandidates corr img loadDigit t)).map
                fun p => Char.ofNat (48 + p.2)))
        ∧ List.Perm (List.insertionSort xLe (digitCandidates corr img loadDigit t))
            (digitCandidates corr img loadDigit t)
        ∧ List.Pairwise xLe (List.insertionSort xLe (digitCandidates corr img loadDigit t)) :=
  fun corr img loadDigit t =>
    ⟨rfl, List.perm_insertionSort xLe (digitCandidates corr img loadDigit t),
      List.sorted_insertionSort xLe (digitCandidates corr img loadDigit t)⟩

/-- C6 counterexample: with a 1×1 captured buffer and a digit library
whose glyph 5 loads but is 2×2 (so matching it fails with an error),
`find_characters_from_library_threaded` returns `Ok("")` — the
per-digit matching error is swallowed, not propagated, contradicting
the claim that every error other than a glyph-load failure propagates
to the caller. -/
theorem C6_counterexample :
    find_all_template corr0 imgG1 imgC2 1 false
        = Except.error (ImageMatchError.openCV "template larger than source")
      ∧ find_characters_from_library_threaded corr0 (Except.ok imgG1) loadDigitBig5 1
        = Except.ok "" :=
  ⟨rfl, rfl⟩

/-- C6 (amended): once the capture succeeds, digit recognition always
returns `Ok` — both glyph-load failures and per-digit matching failures
are recovered (the digit contributes no candidates); the only error
that propagates is a capture failure, surfaced as
`ImageMatchError.screenshot`. -/
theorem C6_error_recovery :
    (∀ (corr : Corr) (img : Img) (loadDigit : ℕ → Except ImageMatchError Img) (t : ℚ),
        ∃ s, find_characters_from_library_threaded corr (Except.ok img) loadDigit t
          = Except.ok s)
      ∧ (∀ (corr : Corr) (loadDigit : ℕ → Except ImageMatchError Img) (t : ℚ)
          (e : ScreenshotError),
          find_characters_from_library_threaded corr (Except.error e) loadDigit t
            = Except.error (ImageMatchError.screenshot e)) :=
  ⟨fun _ _ _ _ => ⟨_, rfl⟩, fun _ _ _ _ => rfl⟩

/-- C1 counterexample: on a template strictly larger than the source,
`find_all_template` returns the propagated generic OpenCV error — not
an error named `TemplateLargerThanSource`, which does not exist among
the variants of `ImageMatchError`. -/
theorem C1_counterexample :
    find_all_template corr0 imgC1 imgC2 1 true
      = Except.error (ImageMatchError.openCV "template larger than source") :=
  rfl

/-- C1 (amended): whenever the template exceeds the source in width or
height, `find_all_template` (in either color mode) returns an error —
never `Ok` with an empty or garbage list — but the error is the
propagated OpenCV error: `ImageMatchError` has only the variants
`screenshot`, `openCV` and `canNotReadImage`, so no
`TemplateLargerThanSource` error can ever be returned. -/
theorem C1_oversize_template_error :
    (∀ (corr : Corr) (src tpl : Img) (conf : ℚ) (rgb : Bool),
        src.rows < tpl.rows ∨ src.cols < tpl.cols →
        find_all_template corr src tpl conf rgb
          = Except.error (ImageMatchError.openCV "template larger than source"))
      ∧ ∀ e : ImageMatchError,
          (∃ s, e = ImageMatchError.screenshot s) ∨ (∃ m, e = ImageMatchError.openCV m)
            ∨ (∃ p, e = ImageMatchError.canNotReadImage p) := by
  constructor
  · intro corr src tpl conf rgb h
    unfold find_all_template matchTemplateMode match_template
    cases rgb with
    | true =>
      rw [if_pos rfl, if_pos h, andThen_error]
    | false =>
      rw [if_neg (by simp)]
      have hdims : ((if src.channels = 1 then src else cvtColorToGray src).rows
            < (cvtColorToGray tpl).rows
          ∨ (if src.channels = 1 then src else cvtColorToGray src).cols
            < (cvtColorToGray tpl).cols) := by
        have h1 : (if src.channels = 1 then src else cvtColorToGray src).rows = src.rows := by
          split <;> rfl
        have h2 : (if src.channels = 1 then src else cvtColorToGray src).cols = src.cols := by
          split <;> rfl
        rw [h1, h2]
        exact h
      rw [if_pos hdims, andThen_error]
  · intro e
    cases e with
    | screenshot s => exact Or.inl ⟨s, rfl⟩
    | openCV m => exact Or.inr (Or.inl ⟨m, rfl⟩)
    | canNotReadImage p => exact Or.inr (Or.inr ⟨p, rfl⟩)

/-- C1 witness: the amended theorem applied to the concrete oversize
pair `imgG1` (1×1) and `imgC2` (2×2) in grayscale mode. -/
theorem C1_witness :
    (imgG1.rows < imgC2.rows ∨ imgG1.cols < imgC2.cols)
      ∧ find_all_template corrTwoCells imgG1 imgC2 2 false
        = Except.error (ImageMatchError.openCV "template larger than source") :=
  ⟨Or.inl (by decide),
    C1_oversize_template_error.1 corrTwoCells imgG1 imgC2 2 false (Or.inl (by decide))⟩

/-- C8: grayscale-mode matching of a 3-channel source produces exactly
the result that grayscale-mode matching produces on the already
single-channel luma conversion of that source — the skip-conversion
fast path for single-channel sources does not change the output. -/
theorem C8_gray_fast_path :
    ∀ (corr : Corr) (src tpl : Img) (conf : ℚ), src.channels = 3 →
      find_all_template corr src tpl conf false
        = find_all_template corr (cvtColorToGray src) tpl conf false := by
  intro corr src tpl conf h
  unfold find_all_template matchTemplateMode
  rw [if_neg (by simp), if_neg (by simp [h]),
    if_pos (show (cvtColorToGray src).channels = 1 from rfl), if_neg (by simp)]

/-- C8 witness: the fast-path equivalence applied to the concrete
3-channel source `imgC1`. -/
theorem C8_witness :
    imgC1.channels = 3
      ∧ find_all_template corr0 imgC1 imgC1 1 false
        = find_all_template corr0 (cvtColorToGray imgC1) imgC1 1 false :=
  ⟨rfl, C8_gray_fast_path corr0 imgC1 imgC1 1 rfl⟩

/-- C2 counterexample: on a 1×2 confidence map with scores 2 then 3 and
threshold 1, the coordinate operation built on `find_all_template`
(`find_image_optimized_coord`) returns the center of the
highest-confidence cell, `(2, 1)` — not the center `(1, 1)` of the
first above-threshold cell in row-major order, which is what
`find_template_coord` returns on the same input; so the claim's
row-major-first description is false for `find_image_optimized_coord`. -/
theorem C2_counterexample :
    find_image_optimized_coord corrTwoCells 0 0 (Except.ok imgC1)
        (Except.ok imgC12) (Except.ok imgC12) 1 true = Except.ok (2, 1)
      ∧ find_template_coord corrTwoCells imgC12 imgC1 1 true 0 0 = Except.ok (1, 1)
      ∧ ((2, 1) : ℤ × ℤ) ≠ (1, 1) := by
  have hall : find_all_template corrTwoCells imgC12 imgC1 1 true
      = Except.ok [mkMatch 1 1 1 0 3, mkMatch 1 1 0 0 2] := rfl
  refine ⟨?_, ?_, by decide⟩
  · unfold find_image_optimized_coord
    rw [ite_self]
    simp only [andThen_ok, liftScreenshot_ok]
    rw [hall]
    simp only [andThen_ok, List.head?_cons]
    norm_num [mkMatch, roundRust]
  · unfold find_template_coord
    rw [show matchTemplateMode corrTwoCells imgC12 imgC1 true = Except.ok resTwo from rfl]
    simp only [andThen_ok]
    rw [show firstHit resTwo 1 = some (0, 0) from rfl]
    norm_num [roundRust, imgC1]

/-- C2 (amended): `find_template_coord` returns the rounded, translated
center of the first above-threshold cell in row-major scan order (flat
index `i`, `x = i % cols`, `y = i / cols`) and the sentinel `(0, 0)`
when no cell qualifies; `find_image_optimized_coord`, by contrast,
returns the rounded, translated center of the head of the
confidence-descending `find_all_template` list — a cell of maximal
confidence, not the row-major-first one — with the same `(0, 0)`
sentinel when the list is empty. -/
theorem C2_first_coord_spec :
    (∀ (corr : Corr) (src tpl : Img) (conf : ℚ) (rgb : Bool) (ox oy : ℤ)
        (res : ScoreMap) (i : ℕ),
        matchTemplateMode corr src tpl rgb = Except.ok res →
        i < res.rows * res.cols →
        conf ≤ res.cell (i / res.cols) (i % res.cols) →
        (∀ j, j < i → ¬ conf ≤ res.cell (j / res.cols) (j % res.cols)) →
        find_template_coord corr src tpl conf rgb ox oy
          = Except.ok (ox + roundRust (((i % res.cols : ℕ) : ℚ) + (tpl.cols : ℚ) / 2),
                       oy + roundRust (((i / res.cols : ℕ) : ℚ) + (tpl.rows : ℚ) / 2)))
      ∧ (∀ (corr : Corr) (src tpl : Img) (conf : ℚ) (rgb : Bool) (ox oy : ℤ)
          (res : ScoreMap),
          matchTemplateMode corr src tpl rgb = Except.ok res →
          (∀ j, j < res.rows * res.cols →
            ¬ conf ≤ res.cell (j / res.cols) (j % res.cols)) →
          find_template_coord corr src tpl conf rgb ox oy = Except.ok (0, 0))
      ∧ (∀ (corr : Corr) (src tpl : Img) (conf : ℚ) (rgb : Bool) (x y : ℤ)
          (m : MatchResult) (rest : List MatchResult),
          find_all_template corr src tpl conf rgb = Except.ok (m :: rest) →
          find_image_optimized_coord corr x y (Except.ok tpl) (Except.ok src)
              (Except.ok src) conf rgb
              = Except.ok (x + roundRust m.result.x, y + roundRust m.result.y)
            ∧ ∀ m2 ∈ m :: rest, m2.confidence ≤ m.confidence)
      ∧ (∀ (corr : Corr) (src tpl : Img) (conf : ℚ) (rgb : Bool) (x y : ℤ),
          find_all_template corr src tpl conf rgb = Except.ok [] →
          find_image_optimized_coord corr x y (Except.ok tpl) (Except.ok src)
            (Except.ok src) conf rgb = Except.ok (0, 0)) := by
  refine ⟨?_, ?_, ?_, ?_⟩
  · intro corr src tpl conf rgb ox oy res i hmt hi hhit hmin
    unfold find_template_coord
    rw [hmt]
    simp only [andThen_ok]
    rw [firstHit_eq_some res conf i hi hhit hmin]
  · intro corr src tpl conf rgb ox oy res hmt hmiss
    unfold find_template_coord
    rw [hmt]
    simp only [andThen_ok]
    rw [firstHit_eq_none res conf hmiss]
  · intro corr src tpl conf rgb x y m rest hall
    constructor
    · unfold find_image_optimized_coord
      rw [ite_self]
      simp only [andThen_ok, liftScreenshot_ok]
      rw [hall]
      simp only [andThen_ok, List.head?_cons]
    · obtain ⟨res, hmt, hL⟩ := find_all_template_ok hall
      have hs : List.Pairwise confGe (m :: rest) := by
        rw [hL]
        exact extract_matches_sorted res tpl conf
      intro m2 hm2
      rcases List.mem_cons.mp hm2 with h | h
      · rw [h]
      · exact (List.pairwise_cons.mp hs).1 m2 h
  · intro corr src tpl conf rgb x y hall
    unfold find_image_optimized_coord
    rw [ite_self]
    simp only [andThen_ok, liftScreenshot_ok]
    rw [hall]
    rfl

/-- C2 witness: the amended theorem's row-major-first part applied to
the concrete map `resTwo` (first hit at flat index 0), and its
head-of-sorted-list part applied to the concrete two-candidate match
list. -/
theorem C2_witness :
    (matchTemplateMode corrTwoCells imgC12 imgC1 true = Except.ok resTwo
        ∧ 0 < resTwo.rows * resTwo.cols
        ∧ (1 : ℚ) ≤ resTwo.cell (0 / resTwo.cols) (0 % resTwo.cols)
        ∧ (∀ j, j < 0 → ¬ (1 : ℚ) ≤ resTwo.cell (j / resTwo.cols) (j % resTwo.cols)))
      ∧ find_template_coord corrTwoCells imgC12 imgC1 1 true 5 7
          = Except.ok (5 + roundRust (((0 % resTwo.cols : ℕ) : ℚ) + (imgC1.cols : ℚ) / 2),
                       7 + roundRust (((0 / resTwo.cols : ℕ) : ℚ) + (imgC1.rows : ℚ) / 2))
      ∧ find_all_template corrTwoCells imgC12 imgC1 1 true
          = Except.ok [mkMatch 1 1 1 0 3, mkMatch 1 1 0 0 2]
      ∧ find_image_optimized_coord corrTwoCells 5 7 (Except.ok imgC1)
          (Except.ok imgC12) (Except.ok imgC12) 1 true
          = Except.ok (5 + roundRust (mkMatch 1 1 1 0 3).result.x,
                       7 + roundRust (mkMatch 1 1 1 0 3).result.y) :=
  ⟨⟨rfl, by decide, by decide, by omega⟩,
    C2_first_coord_spec.1 corrTwoCells imgC12 imgC1 1 true 5 7 resTwo 0 rfl (by decide)
      (by decide) (by omega),
    rfl,
    (C2_first_coord_spec.2.2.1 corrTwoCells imgC12 imgC1 1 true 5 7 (mkMatch 1 1 1 0 3)
      [mkMatch 1 1 0 0 2] rfl).1⟩

/-- C7: `find_color_in_region_coord` scans the captured buffer in
row-major order (flat index `i`, `x = i % cols`, `y = i / cols`) and
returns the absolute coordinate `(x1 + x, y1 + y)` of the first pixel
within tolerance of the target, or the sentinel `(0, 0)` when no pixel
matches; in particular, when every pixel's RGB value equals the target
and the tolerance is 0, it returns the region's top-left absolute
coordinate and `find_color_in_region` returns true. -/
theorem C7_region_color_spec :
    (∀ (x1 y1 : ℕ) (img : CapturedImg) (target : Color8) (tol : ℕ) (i : ℕ),
        i < img.rows * img.cols →
        calculate_color_difference
          (rgb_of_bgr (img.pixel (i / img.cols) (i % img.cols))) target ≤ tol →
        (∀ j, j < i → ¬ calculate_color_difference
          (rgb_of_bgr (img.pixel (j / img.cols) (j % img.cols))) target ≤ tol) →
        find_color_in_region_coord x1 y1 img target tol
          = (x1 + i % img.cols, y1 + i / img.cols))
      ∧ (∀ (x1 y1 : ℕ) (img : CapturedImg) (target : Color8) (tol : ℕ),
          (∀ j, j < img.rows * img.cols → ¬ calculate_color_difference
            (rgb_of_bgr (img.pixel (j / img.cols) (j % img.cols))) target ≤ tol) →
          find_color_in_region_coord x1 y1 img target tol = (0, 0))
      ∧ (∀ (x1 y1 : ℕ) (img : CapturedImg) (target : Color8),
          0 < img.rows → 0 < img.cols →
          (∀ yy, yy < img.rows → ∀ xx, xx < img.cols →
            rgb_of_bgr (img.pixel yy xx) = target) →
          find_color_in_region_coord x1 y1 img target 0 = (x1, y1)
            ∧ find_color_in_region img target 0 = true) := by
  refine ⟨find_color_in_region_coord_hit, find_color_in_region_coord_miss, ?_⟩
  intro x1 y1 img target hr hc hall
  have h0 : calculate_color_difference (rgb_of_bgr (img.pixel 0 0)) target ≤ 0 := by
    rw [hall 0 hr 0 hc, calculate_color_difference_self]
  constructor
  · have h := find_color_in_region_coord_hit x1 y1 img target 0 0
      (Nat.mul_pos hr hc)
      (by rwa [Nat.zero_div, Nat.zero_mod])
      (by omega)
    simpa using h
  · unfold find_color_in_region
    rw [List.any_eq_true]
    refine ⟨0, List.mem_range.mpr hr, ?_⟩
    rw [List.any_eq_true]
    exact ⟨0, List.mem_range.mpr hc, by simpa using h0⟩

/-- C7 witness: the first-match and all-pixels-equal parts applied to
the concrete 1×1 buffer `imgMono` whose pixel is RGB (5, 0, 0). -/
theorem C7_witness :
    (0 < imgMono.rows ∧ 0 < imgMono.cols
        ∧ ∀ yy, yy < imgMono.rows → ∀ xx, xx < imgMono.cols →
            rgb_of_bgr (imgMono.pixel yy xx) = ((5 : Fin 256), (0 : Fin 256), (0 : Fin 256)))
      ∧ find_color_in_region_coord 7 9 imgMono (5, 0, 0) 0 = (7, 9)
      ∧ find_color_in_region imgMono (5, 0, 0) 0 = true := by
  have h := C7_region_color_spec.2.2 7 9 imgMono (5, 0, 0) (by decide) (by decide)
    (by decide)
  exact ⟨⟨by decide, by decide, by decide⟩, h.1, h.2⟩

end AutoUtils
